import Mathlib

/-!
Shallow embedding of src/contact_parser.py, a CSV-to-vCard converter.

The program is a linear pipeline: check the input path and the two file
extensions, read the CSV, lower-case the column names, check the four
required columns, render one vCard block per row (warning on rows whose
phone or email fails a regex check, but still rendering them), then write
the concatenated document, prompting for confirmation when the output
file already exists.

Modelling decisions:
* Strings are Lean strings, i.e. lists of characters.  Python str.lower
  is modelled ASCII-only by mapping Char.toLower over the characters,
  which agrees with Python on every string the program compares here.
* The two regular expressions (email_re, phone_re) are embedded as
  executable matchers over lists of characters, written in continuation
  style: each combinator tries every decomposition, which is exactly the
  language semantics that re.search decides.  email_re is unanchored, so
  re.search succeeds iff some substring matches; phone_re carries its own
  anchors, and in Python (without MULTILINE) the end anchor also matches
  just before a single final newline — both behaviours are reproduced.
* The filesystem and the interactive prompt are a World record: whether
  the input path is a file, the parsed CSV table, the prior content of
  the output file (if it exists), and the prompt response.  A raised
  ValueError becomes an error value; every error is raised before the
  write, so an error result leaves the output file untouched.
* The final write statement emits the document followed by one newline.
-/

namespace ContactVCF

/-! Character classes of the two regular expressions. -/

/-- Class of the local part of email_re: letters, digits, and the
characters dot, underscore, percent, plus, minus.  The functions
Char.isAlpha and Char.isDigit are ASCII, matching the regex classes. -/
def isLocalChar (c : Char) : Bool :=
  c.isAlpha || c.isDigit || c == '.' || c == '_' || c == '%' || c == '+' || c == '-'

/-- Class of the domain part of email_re: letters, digits, dot, minus. -/
def isDomainChar (c : Char) : Bool :=
  c.isAlpha || c.isDigit || c == '.' || c == '-'

/-! Regex combinators, continuation style, trying all decompositions. -/

/-- Match one or more characters of class p (a regex plus), then continue
with k; all split points are tried, as regex backtracking does. -/
def charClassPlusThen (p : Char → Bool) (k : List Char → Bool) : List Char → Bool
  | [] => false
  | c :: cs => p c && (k cs || charClassPlusThen p k cs)

/-- Match the exact character ch, then continue with k. -/
def charThen (ch : Char) (k : List Char → Bool) : List Char → Bool
  | [] => false
  | c :: cs => c == ch && k cs

/-- Match the character ch zero or one times (a regex option), then k. -/
def charOptThen (ch : Char) (k : List Char → Bool) (cs : List Char) : Bool :=
  k cs || charThen ch k cs

/-- Match a dash or a space zero or one times (the separator option of
phone_re), then k. -/
def sepOptThen (k : List Char → Bool) (cs : List Char) : Bool :=
  k cs || charThen '-' k cs || charThen ' ' k cs

/-- Match exactly n digits, then continue with k. -/
def digitsThen : Nat → (List Char → Bool) → List Char → Bool
  | 0, k, cs => k cs
  | _ + 1, _, [] => false
  | n + 1, k, c :: cs => c.isDigit && digitsThen n k cs

/-- Succeed only at the end of the input: the end anchor of phone_re on a
string containing no final newline. -/
def atEnd : List Char → Bool
  | [] => true
  | _ :: _ => false

/-! The email pattern, line 20 of the source: one or more local-class
characters, an at sign, one or more domain-class characters, a literal
dot, then at least two letters.  Applied with re.search, that is, as an
unanchored substring search. -/

/-- Tail of email_re after the domain dot: at least two letters.  For a
search it suffices that the two mandatory letters are present; any
leftover input is allowed since the pattern ends here. -/
def tldTail : List Char → Bool
  | c1 :: c2 :: _ => c1.isAlpha && c2.isAlpha
  | _ => false

/-- Tail of email_re after the at sign: one or more domain-class
characters, then the literal dot and the top-level-domain letters. -/
def domainTail : List Char → Bool :=
  charClassPlusThen isDomainChar (charThen '.' tldTail)

/-- The whole of email_re matched at the current position: some prefix of
the input is local-part, at sign, domain, dot, top-level domain. -/
def emailFrom : List Char → Bool :=
  charClassPlusThen isLocalChar (charThen '@' domainTail)

/-- The function re.search for an unanchored pattern: try every start
position. -/
def searchFrom (f : List Char → Bool) : List Char → Bool
  | [] => f []
  | c :: cs => f (c :: cs) || searchFrom f cs

/-- The check re.search with email_re, viewed as a Boolean (line 59). -/
def emailSearch (s : String) : Bool :=
  searchFrom emailFrom s.data

/-! The phone pattern, line 21 of the source: a start anchor, an optional
country-code group (optional plus, the digit one, optional separator), an
optional opening parenthesis, three digits, an optional closing
parenthesis, optional separator, three digits, optional separator, four
digits, an end anchor.  Although applied with re.search (line 56), the
pattern itself is anchored at both ends. -/

/-- Body of phone_re after the optional country code: optional opening
parenthesis, three digits, optional closing parenthesis, optional
separator, three digits, optional separator, four digits, end anchor. -/
def phoneCore : List Char → Bool :=
  charOptThen '(' <|
    digitsThen 3 <|
      charOptThen ')' <|
        sepOptThen <|
          digitsThen 3 <|
            sepOptThen <|
              digitsThen 4 atEnd

/-- Full body of phone_re: the optional country-code group then the core,
covering the whole input. -/
def phoneFull (cs : List Char) : Bool :=
  phoneCore cs || charOptThen '+' (charThen '1' (sepOptThen phoneCore)) cs

/-- The check re.search with phone_re, viewed as a Boolean.  The start
anchor matches only at the start of the string; the Python end anchor
matches at the end of the string or just before a newline that ends the
string. -/
def phoneSearch (s : String) : Bool :=
  phoneFull s.data ||
    (match s.data.getLast? with
     | some c => c == '\n' && phoneFull s.data.dropLast
     | none => false)

/-! Rows and the record validator. -/

/-- One contact row, as read from the four CSV columns first name,
last name, email, phone. -/
structure Row where
  firstName : String
  lastName : String
  email : String
  phone : String
deriving DecidableEq

/-- The row validator of lines 53-63: true iff both the phone and the
email pass their regex check.  The source also prints one warning per
failed check; the returned Boolean is the conjunction of the checks. -/
def verify_row (r : Row) : Bool :=
  phoneSearch r.phone && emailSearch r.email

/-! The vCard template and the rendering loop. -/

/-- The template of lines 22-28 with the format call of lines 96-100
applied: the field values are inserted verbatim, with no escaping.  The
template string itself ends with a newline after the END line. -/
def vcard_format (email number fname lname : String) : String :=
  "BEGIN:VCARD\nVERSION:3.0\nEMAIL:" ++ email ++
    "\nTEL;TYPE=cell,voice:" ++ number ++
    "\nFN:" ++ fname ++ " " ++ lname ++ "\nEND:VCARD\n"

/-- The card block rendered for a row: the template applied to the email,
phone, first-name and last-name cells of the row. -/
def renderRow (r : Row) : String :=
  vcard_format r.email r.phone r.firstName r.lastName

/-- State accumulated by the rendering loop of lines 90-101: the output
string, the running count of added contacts, and how many rows drew a
warning. -/
structure LoopState where
  outDoc : String
  num_contacts_added : Nat
  numWarned : Nat
deriving DecidableEq

/-- One iteration of the loop (lines 92-101): the validator is consulted
only to print a warning; the row is appended to the output and counted
regardless of its validity. -/
def loopStep (st : LoopState) (r : Row) : LoopState :=
  { outDoc := st.outDoc ++ renderRow r
    num_contacts_added := st.num_contacts_added + 1
    numWarned := st.numWarned + (if verify_row r then 0 else 1) }

/-- The whole rendering loop, starting from the empty output string and a
count of zero. -/
def processRows (rows : List Row) : LoopState :=
  rows.foldl loopStep ⟨"", 0, 0⟩

/-- Concatenation, in order, of one rendered card block per row: the
shape the specification ascribes to the output document. -/
def concatBlocks : List Row → String
  | [] => ""
  | r :: rows => renderRow r ++ concatBlocks rows

/-! The CSV table, column normalization and the schema check. -/

/-- Python str.lower, ASCII-only; all header and response strings the
program compares are ASCII. -/
def lowerStr (s : String) : String :=
  ⟨s.data.map Char.toLower⟩

/-- The parsed CSV: a header row and the data rows, each row a list of
cells aligned with the header. -/
structure CSVTable where
  header : List String
  rows : List (List String)
deriving DecidableEq

/-- Line 82 of the source: every column name is lower-cased. -/
def lowerColumns (t : CSVTable) : CSVTable :=
  ⟨t.header.map lowerStr, t.rows⟩

/-- Reading one cell of a pandas row by column name: the cell under the
first column named key.  After the schema check the four keys are always
present, so the fallback empty string is never reached on inputs the
program accepts. -/
def cellOf (header : List String) (cells : List String) (key : String) : String :=
  (((header.zip cells).lookup key).getD (""))

/-- Build the contact row that lines 96-99 read from one table row. -/
def rowOf (header : List String) (cells : List String) : Row :=
  { firstName := cellOf header cells ("first name")
    lastName := cellOf header cells ("last name")
    email := cellOf header cells ("email")
    phone := cellOf header cells ("phone") }

/-- The sequence of contact rows of a column-lowered table, in row order. -/
def extractRows (t : CSVTable) : List Row :=
  t.rows.map (rowOf t.header)

/-- The required-column list of line 85. -/
def required_cols : List String :=
  ["First name", "Last name", "Email", "Phone"]

/-- The schema check of line 86: every required column name, lower-cased,
occurs among the (already lower-cased) columns of the table t. -/
def checkRequired (t : CSVTable) : Bool :=
  required_cols.all fun c => t.header.contains (lowerStr c)

/-! Path checks, errors, and the whole run. -/

/-- Python slicing of the last four characters: the whole string when it
is shorter than four characters. -/
def lastFour (s : String) : String :=
  ⟨s.data.drop (s.data.length - 4)⟩

/-- The four fatal errors of main, in source order: line 73 (input path
is not a file), line 75 (input does not end in the lower-case csv
extension), line 77 (output does not end in the lower-case vcf
extension), line 87 (a required column is missing).  Each is raised as a
ValueError carrying a descriptive message. -/
inductive MainErr where
  | invalidInputPath
  | invalidInputExt
  | invalidOutputExt
  | missingColumns
deriving DecidableEq

/-- Everything outside the program that a run observes: the filesystem
facts and the interactive prompt response.  The field outputFileBefore is
the content of the output file when it exists, and none when it does not. -/
structure World where
  inputIsFile : Bool
  inputTable : CSVTable
  outputFileBefore : Option String
  promptResponse : String
deriving DecidableEq

/-- Observable outcome of a successful run: the document built by the
loop, the reported count, the number of warned rows, whether the write
happened, the output file content afterwards, and whether the run
reported that results were not written. -/
structure RunOk where
  document : String
  numAdded : Nat
  numWarned : Nat
  wrote : Bool
  fileAfter : Option String
  reportedNotWritten : Bool
deriving DecidableEq

/-- The function main (lines 68-115) given the parsed arguments.  A
raised ValueError is an error value; since every error is raised before
the file write of lines 111-112, an error result leaves the output file
exactly as it was.  The write emits the document plus one newline.  The
overwrite token is lower-cased and compared with the letter y; when the
output file does not exist the token is set to y unconditionally. -/
def mainRun (input outPath : String) (w : World) : Except MainErr RunOk :=
  if w.inputIsFile = false then .error .invalidInputPath
  else if lastFour input ≠ ".csv" then .error .invalidInputExt
  else if lastFour outPath ≠ ".vcf" then .error .invalidOutputExt
  else
    let contact_info := lowerColumns w.inputTable
    if checkRequired contact_info = false then .error .missingColumns
    else
      let st := processRows (extractRows contact_info)
      let overwrite := if w.outputFileBefore.isSome then w.promptResponse else ("y")
      if lowerStr overwrite = "y" then
        .ok { document := st.outDoc
              numAdded := st.num_contacts_added
              numWarned := st.numWarned
              wrote := true
              fileAfter := some (st.outDoc ++ "\n")
              reportedNotWritten := false }
      else
        .ok { document := st.outDoc
              numAdded := st.num_contacts_added
              numWarned := st.numWarned
              wrote := false
              fileAfter := w.outputFileBefore
              reportedNotWritten := true }

/-! Sample data used by the witness theorems. -/

/-- A sample table: mixed-case headers, a fully valid first row, and a
second row whose email fails the email check. -/
def sampleTable : CSVTable :=
  ⟨["First Name", "Last Name", "Email", "Phone"],
   [["Jane", "Doe", "jane@x.com", "555-111-2222"],
    ["Bob", "Roe", "bad-email", "5551112222"]]⟩

/-- A world where the output file does not exist yet. -/
def sampleWorldNew : World :=
  ⟨true, sampleTable, none, ""⟩

/-- A world where the output file exists and the prompt answer is n. -/
def sampleWorldExisting : World :=
  ⟨true, sampleTable, some ("OLD"), "n"⟩

/-- A table whose header lacks the phone column. -/
def tableMissingPhone : CSVTable :=
  ⟨["First name", "Last name", "Email"], []⟩

/-- A table with the required header row and zero data rows. -/
def emptyTable : CSVTable :=
  ⟨["First name", "Last name", "Email", "Phone"], []⟩

/-! Helper lemmas about the rendering loop. -/

/-- The loop appends one block per row and increments the count once per
row, from any starting state. -/
theorem foldl_loopStep (rows : List Row) :
    ∀ st : LoopState,
      (rows.foldl loopStep st).outDoc = st.outDoc ++ concatBlocks rows ∧
      (rows.foldl loopStep st).num_contacts_added = st.num_contacts_added + rows.length := by
  induction rows with
  | nil =>
    intro st
    simp [concatBlocks, String.append_empty]
  | cons r rows ih =>
    intro st
    have h := ih (loopStep st r)
    simp only [List.foldl_cons]
    refine ⟨?_, ?_⟩
    · rw [h.1]
      simp [loopStep, concatBlocks, String.append_assoc]
    · rw [h.2]
      simp [loopStep]
      omega

/-- The document built by the loop is the concatenation of one block per
row, in row order. -/
theorem processRows_outDoc (rows : List Row) :
    (processRows rows).outDoc = concatBlocks rows := by
  have h := (foldl_loopStep rows ⟨"", 0, 0⟩).1
  simpa [processRows, String.empty_append] using h

/-- The count reported by the loop equals the number of rows. -/
theorem processRows_num (rows : List Row) :
    (processRows rows).num_contacts_added = rows.length := by
  have h := (foldl_loopStep rows ⟨"", 0, 0⟩).2
  simpa [processRows] using h

/-- Extracting contact rows preserves the number of rows. -/
theorem extractRows_length (t : CSVTable) : (extractRows t).length = t.rows.length := by
  simp [extractRows]

/-- Lower-casing the columns leaves the data rows unchanged. -/
theorem lowerColumns_rows (t : CSVTable) : (lowerColumns t).rows = t.rows := rfl

/-! Helper lemmas about the whole run. -/

/-- When the input path is not a file, the run stops at the first check. -/
theorem mainRun_err_inputPath (input outPath : String) (w : World)
    (h : w.inputIsFile = false) :
    mainRun input outPath w = .error .invalidInputPath := by
  simp [mainRun, h]

/-- When the input extension is wrong, the run stops at the second check. -/
theorem mainRun_err_inputExt (input outPath : String) (w : World)
    (h1 : w.inputIsFile = true) (h2 : lastFour input ≠ ".csv") :
    mainRun input outPath w = .error .invalidInputExt := by
  simp [mainRun, h1, h2]

/-- When the output extension is wrong, the run stops at the third check,
whatever the input table holds. -/
theorem mainRun_err_outputExt (input outPath : String) (w : World)
    (h1 : w.inputIsFile = true) (h2 : lastFour input = ".csv")
    (h3 : lastFour outPath ≠ ".vcf") :
    mainRun input outPath w = .error .invalidOutputExt := by
  simp [mainRun, h1, h2, h3]

/-- When a required column is missing, the run stops at the schema check. -/
theorem mainRun_err_missing (input outPath : String) (w : World)
    (h1 : w.inputIsFile = true) (h2 : lastFour input = ".csv")
    (h3 : lastFour outPath = ".vcf")
    (h4 : checkRequired (lowerColumns w.inputTable) = false) :
    mainRun input outPath w = .error .missingColumns := by
  simp [mainRun, h1, h2, h3, h4]

/-- When every check passes and the overwrite token lower-cases to y, the
run succeeds and writes the concatenated document plus a final newline. -/
theorem mainRun_ok_write (input outPath : String) (w : World)
    (h1 : w.inputIsFile = true) (h2 : lastFour input = ".csv")
    (h3 : lastFour outPath = ".vcf")
    (h4 : checkRequired (lowerColumns w.inputTable) = true)
    (h5 : lowerStr (if w.outputFileBefore.isSome then w.promptResponse else ("y")) = "y") :
    mainRun input outPath w =
      .ok { document := concatBlocks (extractRows (lowerColumns w.inputTable))
            numAdded := w.inputTable.rows.length
            numWarned := (processRows (extractRows (lowerColumns w.inputTable))).numWarned
            wrote := true
            fileAfter := some (concatBlocks (extractRows (lowerColumns w.inputTable)) ++ "\n")
            reportedNotWritten := false } := by
  simp [mainRun, h1, h2, h3, h4, h5, processRows_outDoc, processRows_num,
    extractRows_length, lowerColumns_rows]

/-- When every check passes but the overwrite token does not lower-case
to y, the run succeeds without writing: the file keeps its prior content
and the run reports that results were not written. -/
theorem mainRun_ok_nowrite (input outPath : String) (w : World)
    (h1 : w.inputIsFile = true) (h2 : lastFour input = ".csv")
    (h3 : lastFour outPath = ".vcf")
    (h4 : checkRequired (lowerColumns w.inputTable) = true)
    (h5 : lowerStr (if w.outputFileBefore.isSome then w.promptResponse else ("y")) ≠ "y") :
    mainRun input outPath w =
      .ok { document := concatBlocks (extractRows (lowerColumns w.inputTable))
            numAdded := w.inputTable.rows.length
            numWarned := (processRows (extractRows (lowerColumns w.inputTable))).numWarned
            wrote := false
            fileAfter := w.outputFileBefore
            reportedNotWritten := true } := by
  simp [mainRun, h1, h2, h3, h4, h5, processRows_outDoc, processRows_num,
    extractRows_length, lowerColumns_rows]

/-! Helper lemmas: the email matcher is stable under extending the input
on either side, which is what makes the unanchored search a substring
search. -/

/-- A plus-then-continuation match survives appending a suffix, provided
the continuation does. -/
theorem charClassPlusThen_append {p : Char → Bool} {k : List Char → Bool} (suf : List Char)
    (hk : ∀ cs, k cs = true → k (cs ++ suf) = true) :
    ∀ cs, charClassPlusThen p k cs = true → charClassPlusThen p k (cs ++ suf) = true := by
  intro cs
  induction cs with
  | nil =>
    intro h
    exact absurd h (by simp [charClassPlusThen])
  | cons c cs ih =>
    intro h
    rw [List.cons_append]
    simp only [charClassPlusThen, Bool.and_eq_true, Bool.or_eq_true] at h ⊢
    refine ⟨h.1, ?_⟩
    rcases h.2 with hk1 | hrec
    · exact Or.inl (hk cs hk1)
    · exact Or.inr (ih hrec)

/-- A single-character match survives appending a suffix, provided the
continuation does. -/
theorem charThen_append {ch : Char} {k : List Char → Bool} (suf : List Char)
    (hk : ∀ cs, k cs = true → k (cs ++ suf) = true) :
    ∀ cs, charThen ch k cs = true → charThen ch k (cs ++ suf) = true := by
  intro cs h
  cases cs with
  | nil => exact absurd h (by simp [charThen])
  | cons c cs =>
    rw [List.cons_append]
    simp only [charThen, Bool.and_eq_true] at h ⊢
    exact ⟨h.1, hk cs h.2⟩

/-- The top-level-domain tail ignores everything after its two letters. -/
theorem tldTail_append (suf : List Char) :
    ∀ cs, tldTail cs = true → tldTail (cs ++ suf) = true := by
  intro cs h
  match cs with
  | [] => exact absurd h (by simp [tldTail])
  | [c] => exact absurd h (by simp [tldTail])
  | c1 :: c2 :: rest => simpa [tldTail] using h

/-- A full email match at a position survives appending a suffix. -/
theorem emailFrom_append (suf : List Char) :
    ∀ cs, emailFrom cs = true → emailFrom (cs ++ suf) = true := by
  intro cs h
  unfold emailFrom domainTail at h ⊢
  exact charClassPlusThen_append suf
    (charThen_append suf
      (charClassPlusThen_append suf (charThen_append suf (tldTail_append suf)))) cs h

/-- A search succeeds when the pattern matches at the very start. -/
theorem searchFrom_here {f : List Char → Bool} :
    ∀ cs, f cs = true → searchFrom f cs = true := by
  intro cs h
  cases cs with
  | nil => simpa [searchFrom] using h
  | cons c cs => simp [searchFrom, h]

/-- A successful search survives prepending characters. -/
theorem searchFrom_append_left {f : List Char → Bool} (pre : List Char) :
    ∀ cs, searchFrom f cs = true → searchFrom f (pre ++ cs) = true := by
  induction pre with
  | nil =>
    intro cs h
    simpa using h
  | cons c pre ih =>
    intro cs h
    rw [List.cons_append]
    simp only [searchFrom, Bool.or_eq_true]
    exact Or.inr (ih cs h)

/-- A successful search survives appending characters, provided a match
of the pattern does. -/
theorem searchFrom_append_right {f : List Char → Bool} (suf : List Char)
    (hf : ∀ cs, f cs = true → f (cs ++ suf) = true) :
    ∀ cs, searchFrom f cs = true → searchFrom f (cs ++ suf) = true := by
  intro cs
  induction cs with
  | nil =>
    intro h
    simp only [searchFrom] at h
    rw [List.nil_append]
    exact searchFrom_here suf (by simpa using hf [] h)
  | cons c cs ih =>
    intro h
    rw [List.cons_append]
    simp only [searchFrom, Bool.or_eq_true] at h ⊢
    rcases h with h | h
    · exact Or.inl (by simpa using hf (c :: cs) h)
    · exact Or.inr (ih h)

/-- The email check is a substring search: embedding a passing value in a
longer string keeps it passing. -/
theorem emailSearch_substring (pre s suf : String) (h : emailSearch s = true) :
    emailSearch (pre ++ s ++ suf) = true := by
  unfold emailSearch at h ⊢
  have hdata : (pre ++ s ++ suf).data = pre.data ++ (s.data ++ suf.data) := by
    simp [String.data_append, List.append_assoc]
  rw [hdata]
  exact searchFrom_append_left pre.data _
    (searchFrom_append_right suf.data (emailFrom_append suf.data) s.data h)

/-! Helper lemma for the schema check. -/

/-- The schema check passes whenever each required name is present in the
header in some casing. -/
theorem checkRequired_of_caseless (t : CSVTable)
    (h : ∀ c ∈ required_cols, ∃ hcol ∈ t.header, lowerStr hcol = lowerStr c) :
    checkRequired (lowerColumns t) = true := by
  simp only [checkRequired, lowerColumns, List.all_eq_true]
  intro c hc
  obtain ⟨hcol, hmem, heq⟩ := h c hc
  have hin : lowerStr c ∈ t.header.map lowerStr :=
    heq ▸ List.mem_map_of_mem lowerStr hmem
  simpa using hin

/-! The claims. -/

/-- C1: for every input table passing the path, extension and schema
checks, with N data rows, the run succeeds; the produced document is the
concatenation of exactly one card block per input row, in input row order
(rows whose phone or email fails validation are included like any other,
since the loop appends every row regardless of the validity flag), and
the reported count of added contacts equals N. -/
theorem c1_all_rows_rendered (input outPath : String) (w : World)
    (h1 : w.inputIsFile = true) (h2 : lastFour input = ".csv")
    (h3 : lastFour outPath = ".vcf")
    (h4 : checkRequired (lowerColumns w.inputTable) = true) :
    ∃ r : RunOk, mainRun input outPath w = .ok r ∧
      r.document = concatBlocks (extractRows (lowerColumns w.inputTable)) ∧
      r.numAdded = w.inputTable.rows.length := by
  by_cases hy : lowerStr (if w.outputFileBefore.isSome then w.promptResponse else ("y")) = "y"
  · exact ⟨_, mainRun_ok_write input outPath w h1 h2 h3 h4 hy, rfl, rfl⟩
  · exact ⟨_, mainRun_ok_nowrite input outPath w h1 h2 h3 h4 hy, rfl, rfl⟩

/-- C1 witness: a concrete two-row table (the second row has an invalid
email) is rendered into two blocks with a reported count of two. -/
theorem c1_witness :
    ∃ r : RunOk, mainRun ("contacts.csv") ("out.vcf") sampleWorldNew = .ok r ∧
      r.document = concatBlocks (extractRows (lowerColumns sampleWorldNew.inputTable)) ∧
      r.numAdded = sampleWorldNew.inputTable.rows.length :=
  c1_all_rows_rendered ("contacts.csv") ("out.vcf") sampleWorldNew
    (by decide) (by decide) (by decide) (by decide)

/-- C2: every rendered card block is exactly the fixed template — the
literal lines BEGIN:VCARD, VERSION:3.0, EMAIL plus the email value,
TEL;TYPE=cell,voice plus the phone value, FN plus first and last name,
END:VCARD, in that order, values inserted verbatim with no escaping and a
newline after each line — and when the run writes, the file content is
the concatenation of all blocks in order followed by one additional
trailing line terminator. -/
theorem c2_template_and_concatenation :
    (∀ r : Row,
      renderRow r =
        "BEGIN:VCARD" ++ "\n" ++ "VERSION:3.0" ++ "\n" ++
          "EMAIL:" ++ r.email ++ "\n" ++
          "TEL;TYPE=cell,voice:" ++ r.phone ++ "\n" ++
          "FN:" ++ r.firstName ++ " " ++ r.lastName ++ "\n" ++
          "END:VCARD" ++ "\n") ∧
    (∀ (input outPath : String) (w : World),
      w.inputIsFile = true → lastFour input = ".csv" → lastFour outPath = ".vcf" →
      checkRequired (lowerColumns w.inputTable) = true →
      lowerStr (if w.outputFileBefore.isSome then w.promptResponse else ("y")) = "y" →
      mainRun input outPath w =
        .ok { document := concatBlocks (extractRows (lowerColumns w.inputTable))
              numAdded := w.inputTable.rows.length
              numWarned := (processRows (extractRows (lowerColumns w.inputTable))).numWarned
              wrote := true
              fileAfter := some (concatBlocks (extractRows (lowerColumns w.inputTable)) ++ "\n")
              reportedNotWritten := false }) := by
  constructor
  · intro r
    unfold renderRow vcard_format
    have e1 : ("BEGIN:VCARD\nVERSION:3.0\nEMAIL:" : String) =
        "BEGIN:VCARD" ++ "\n" ++ "VERSION:3.0" ++ "\n" ++ "EMAIL:" := by decide
    have e2 : ("\nTEL;TYPE=cell,voice:" : String) = "\n" ++ "TEL;TYPE=cell,voice:" := by decide
    have e3 : ("\nFN:" : String) = "\n" ++ "FN:" := by decide
    have e4 : ("\nEND:VCARD\n" : String) = "\n" ++ "END:VCARD" ++ "\n" := by decide
    rw [e1, e2, e3, e4]
    simp [String.append_assoc]
  · intro input outPath w h1 h2 h3 h4 h5
    exact mainRun_ok_write input outPath w h1 h2 h3 h4 h5

/-- C2 witness: the concrete two-row world is written as the two blocks
followed by one line terminator. -/
theorem c2_witness :
    mainRun ("contacts.csv") ("out.vcf") sampleWorldNew =
      .ok { document := concatBlocks (extractRows (lowerColumns sampleWorldNew.inputTable))
            numAdded := sampleWorldNew.inputTable.rows.length
            numWarned := (processRows (extractRows (lowerColumns sampleWorldNew.inputTable))).numWarned
            wrote := true
            fileAfter := some (concatBlocks (extractRows (lowerColumns sampleWorldNew.inputTable)) ++ "\n")
            reportedNotWritten := false } :=
  c2_template_and_concatenation.2 ("contacts.csv") ("out.vcf") sampleWorldNew
    (by decide) (by decide) (by decide) (by decide) (by decide)

/-- C3 counterexample: the claim says a valid phone embedded in a longer
string — for example with trailing garbage appended — still passes the
phone check.  It does not: the bare number passes, but the same number
with one trailing character fails, because phone_re carries its own start
and end anchors. -/
theorem c3_counterexample :
    phoneSearch ("555-123-4567") = true ∧ phoneSearch ("555-123-4567x") = false := by
  decide

/-- C3 amended: only the email check is an unanchored substring search —
any string containing a passing email value still passes, whatever is
prepended or appended.  The phone check, although applied with a search,
is anchored at both ends by the pattern itself, so leading or trailing
garbage makes it fail; the sole relaxation is that a single trailing
newline is tolerated by the end anchor. -/
theorem c3_amended :
    (∀ pre s suf : String, emailSearch s = true → emailSearch (pre ++ s ++ suf) = true) ∧
    (phoneSearch ("x555-123-4567") = false ∧
     phoneSearch ("555-123-4567x") = false ∧
     phoneSearch ("555-123-4567\n") = true) := by
  exact ⟨emailSearch_substring, by decide⟩

/-- C3 amended witness: a passing email value embedded between garbage on
both sides still passes the email check. -/
theorem c3_amended_witness :
    emailSearch (("zz ") ++ ("a.b+c@example.co") ++ (" yy")) = true :=
  c3_amended.1 ("zz ") ("a.b+c@example.co") (" yy") (by decide)

/-- C4: when the output path already exists and the confirmation response
does not lower-case to y, the run does not write — the file keeps its
prior content byte for byte and the run reports that nothing was written;
and on any successful run the write happens if and only if the response
lower-cases to y or the destination did not exist. -/
theorem c4_no_overwrite_without_confirmation (input outPath : String) (w : World)
    (h1 : w.inputIsFile = true) (h2 : lastFour input = ".csv")
    (h3 : lastFour outPath = ".vcf")
    (h4 : checkRequired (lowerColumns w.inputTable) = true) :
    (w.outputFileBefore.isSome = true → lowerStr w.promptResponse ≠ "y" →
      mainRun input outPath w =
        .ok { document := concatBlocks (extractRows (lowerColumns w.inputTable))
              numAdded := w.inputTable.rows.length
              numWarned := (processRows (extractRows (lowerColumns w.inputTable))).numWarned
              wrote := false
              fileAfter := w.outputFileBefore
              reportedNotWritten := true }) ∧
    (∀ r : RunOk, mainRun input outPath w = .ok r →
      (r.wrote = true ↔ (lowerStr w.promptResponse = "y" ∨ w.outputFileBefore = none))) := by
  constructor
  · intro hsome hny
    apply mainRun_ok_nowrite input outPath w h1 h2 h3 h4
    simpa [hsome] using hny
  · intro r hr
    cases hob : w.outputFileBefore with
    | none =>
      have h5 : lowerStr (if w.outputFileBefore.isSome then w.promptResponse else ("y")) = "y" := by
        simp [hob]
        decide
      rw [mainRun_ok_write input outPath w h1 h2 h3 h4 h5] at hr
      injection hr with hr
      subst hr
      simp
    | some content =>
      by_cases hy : lowerStr w.promptResponse = "y"
      · have h5 : lowerStr (if w.outputFileBefore.isSome then w.promptResponse else ("y")) = "y" := by
          simpa [hob] using hy
        rw [mainRun_ok_write input outPath w h1 h2 h3 h4 h5] at hr
        injection hr with hr
        subst hr
        simp [hy]
      · have h5 : lowerStr (if w.outputFileBefore.isSome then w.promptResponse else ("y")) ≠ "y" := by
          simpa [hob] using hy
        rw [mainRun_ok_nowrite input outPath w h1 h2 h3 h4 h5] at hr
        injection hr with hr
        subst hr
        simp [hy, hob]

/-- C4 witness: with an existing output file holding OLD and the answer
n, the run keeps the file content and reports that nothing was written. -/
theorem c4_witness :
    mainRun ("contacts.csv") ("out.vcf") sampleWorldExisting =
      .ok { document := concatBlocks (extractRows (lowerColumns sampleWorldExisting.inputTable))
            numAdded := sampleWorldExisting.inputTable.rows.length
            numWarned := (processRows (extractRows (lowerColumns sampleWorldExisting.inputTable))).numWarned
            wrote := false
            fileAfter := sampleWorldExisting.outputFileBefore
            reportedNotWritten := true } :=
  (c4_no_overwrite_without_confirmation ("contacts.csv") ("out.vcf") sampleWorldExisting
    (by decide) (by decide) (by decide) (by decide)).1 (by decide) (by decide)

/-- C5: each of the four fatal conditions — input path not an existing
file, input extension not the csv extension, output extension not the vcf
extension, required column missing after normalization — makes the run
terminate with its error before any output is produced (the error value
models the ValueError raised before the write statement ever runs).  The
output-extension conjunct holds for every world, in particular for any
input table whatsoever, showing that check runs before the input file is
parsed. -/
theorem c5_fatal_checks_before_output (input outPath : String) (w : World) :
    (w.inputIsFile = false → mainRun input outPath w = .error .invalidInputPath) ∧
    (w.inputIsFile = true → lastFour input ≠ ".csv" →
      mainRun input outPath w = .error .invalidInputExt) ∧
    (w.inputIsFile = true → lastFour input = ".csv" → lastFour outPath ≠ ".vcf" →
      mainRun input outPath w = .error .invalidOutputExt) ∧
    (w.inputIsFile = true → lastFour input = ".csv" → lastFour outPath = ".vcf" →
      checkRequired (lowerColumns w.inputTable) = false →
      mainRun input outPath w = .error .missingColumns) :=
  ⟨fun h => mainRun_err_inputPath input outPath w h,
   fun h1 h2 => mainRun_err_inputExt input outPath w h1 h2,
   fun h1 h2 h3 => mainRun_err_outputExt input outPath w h1 h2 h3,
   fun h1 h2 h3 h4 => mainRun_err_missing input outPath w h1 h2 h3 h4⟩

/-- C5 witness: the four fatal conditions at concrete inputs, including a
wrong output extension together with a table that also lacks a required
column — the run still reports the output-extension error, showing that
check precedes the schema check on the parsed table. -/
theorem c5_witness :
    mainRun ("contacts.csv") ("out.vcf") ⟨false, sampleTable, none, ""⟩ =
      .error .invalidInputPath ∧
    mainRun ("contacts.txt") ("out.vcf") sampleWorldNew = .error .invalidInputExt ∧
    mainRun ("contacts.csv") ("out.txt") ⟨true, tableMissingPhone, none, ""⟩ =
      .error .invalidOutputExt ∧
    mainRun ("contacts.csv") ("out.vcf") ⟨true, tableMissingPhone, none, ""⟩ =
      .error .missingColumns :=
  ⟨(c5_fatal_checks_before_output ("contacts.csv") ("out.vcf") _).1 (by decide),
   (c5_fatal_checks_before_output ("contacts.txt") ("out.vcf") _).2.1 (by decide) (by decide),
   (c5_fatal_checks_before_output ("contacts.csv") ("out.txt") _).2.2.1
     (by decide) (by decide) (by decide),
   (c5_fatal_checks_before_output ("contacts.csv") ("out.vcf") _).2.2.2
     (by decide) (by decide) (by decide) (by decide)⟩

/-- C6: the phone check accepts 555-123-4567 and (555) 123-4567 and
rejects 12345; the optional leading country code — a plus-one or a bare
one — is also accepted, per the pattern. -/
theorem c6_phone_check_examples :
    phoneSearch ("555-123-4567") = true ∧
    phoneSearch ("(555) 123-4567") = true ∧
    phoneSearch ("12345") = false ∧
    phoneSearch ("+1 555-123-4567") = true ∧
    phoneSearch ("1-555-123-4567") = true := by
  decide

/-- C7: the email check accepts a.b+c@example.co and rejects
not-an-email, per the pattern requiring a local part, an at sign, a
domain, a dot and at least two letters. -/
theorem c7_email_check_examples :
    emailSearch ("a.b+c@example.co") = true ∧
    emailSearch ("not-an-email") = false := by
  decide

/-- C8: column-name matching is case-insensitive — the header spellings
Email and email lower to the same canonical key, and the required-columns
check succeeds whenever each of the four required names is present in the
header in any casing. -/
theorem c8_columns_case_insensitive :
    lowerStr ("Email") = lowerStr ("email") ∧
    ∀ t : CSVTable,
      (∀ c ∈ required_cols, ∃ hcol ∈ t.header, lowerStr hcol = lowerStr c) →
      checkRequired (lowerColumns t) = true :=
  ⟨by decide, checkRequired_of_caseless⟩

/-- C8 witness: a header with the four required names in scrambled
casings (plus an extra column) passes the schema check. -/
theorem c8_witness :
    checkRequired (lowerColumns ⟨["FIRST NAME", "Last Name", "eMail", "PHONE", "Extra"], []⟩) =
      true :=
  c8_columns_case_insensitive.2 ⟨["FIRST NAME", "Last Name", "eMail", "PHONE", "Extra"], []⟩
    (by decide)

/-- C9: unlike column matching, the extension checks compare the last
four characters of the path case-sensitively: an input path ending in the
upper-case csv extension is rejected as invalid input, and an output path
ending in the upper-case vcf extension is rejected as an invalid output
path. -/
theorem c9_extensions_case_sensitive (input outPath : String) (w : World)
    (hfile : w.inputIsFile = true) :
    (lastFour input = ".CSV" → mainRun input outPath w = .error .invalidInputExt) ∧
    (lastFour input = ".csv" → lastFour outPath = ".VCF" →
      mainRun input outPath w = .error .invalidOutputExt) := by
  constructor
  · intro h
    exact mainRun_err_inputExt input outPath w hfile (by rw [h]; decide)
  · intro h1 h2
    exact mainRun_err_outputExt input outPath w hfile h1 (by rw [h2]; decide)

/-- C9 witness: concrete paths with upper-case extensions are rejected
even over a fully valid table. -/
theorem c9_witness :
    mainRun ("contacts.CSV") ("out.vcf") sampleWorldNew = .error .invalidInputExt ∧
    mainRun ("contacts.csv") ("out.VCF") sampleWorldNew = .error .invalidOutputExt :=
  ⟨(c9_extensions_case_sensitive ("contacts.CSV") ("out.vcf") sampleWorldNew
      (by decide)).1 (by decide),
   (c9_extensions_case_sensitive ("contacts.csv") ("out.VCF") sampleWorldNew
      (by decide)).2 (by decide) (by decide)⟩

/-- C10: an input table with the required header row and zero data rows
succeeds — the reported count of added contacts is zero, and when the
write proceeds the output file holds exactly one line terminator and no
card blocks. -/
theorem c10_empty_table_ok (input outPath : String) (w : World)
    (h1 : w.inputIsFile = true) (h2 : lastFour input = ".csv")
    (h3 : lastFour outPath = ".vcf")
    (h4 : checkRequired (lowerColumns w.inputTable) = true)
    (hrows : w.inputTable.rows = []) :
    ∃ r : RunOk, mainRun input outPath w = .ok r ∧ r.numAdded = 0 ∧
      (r.wrote = true → r.fileAfter = some ("\n")) := by
  have hcb : concatBlocks (extractRows (lowerColumns w.inputTable)) = "" := by
    simp [extractRows, lowerColumns_rows, hrows, concatBlocks]
  by_cases hy : lowerStr (if w.outputFileBefore.isSome then w.promptResponse else ("y")) = "y"
  · refine ⟨_, mainRun_ok_write input outPath w h1 h2 h3 h4 hy, by simp [hrows], ?_⟩
    intro _
    simp [hcb, String.empty_append]
  · refine ⟨_, mainRun_ok_nowrite input outPath w h1 h2 h3 h4 hy, by simp [hrows], ?_⟩
    intro hw
    exact absurd hw (by simp)

/-- C10 witness: a concrete header-only table reports zero contacts and,
the destination being new, writes a file holding exactly one newline. -/
theorem c10_witness :
    ∃ r : RunOk, mainRun ("contacts.csv") ("out.vcf") ⟨true, emptyTable, none, ""⟩ = .ok r ∧
      r.numAdded = 0 ∧ (r.wrote = true → r.fileAfter = some ("\n")) :=
  c10_empty_table_ok ("contacts.csv") ("out.vcf") ⟨true, emptyTable, none, ""⟩
    (by decide) (by decide) (by decide) (by decide) (by decide)

end ContactVCF
